import Mathlib

/-!
Shallow embedding of the Anki-Ai core (utils/data_processing.py, utils/history.py,
utils/rag.py) and proofs about its specification.

Conventions of the embedding:
- Python strings are Lean `String`; the Python methods `str.lower`, `str.strip`,
  `str.startswith` and the `in` substring test are modelled over the underlying
  character list (faithful for the ASCII inputs the program manipulates).
- The pandas DataFrame rows consumed by the functions are modelled as structures
  holding the accessed fields.
- Network input/output is modelled by passing the reply the transport layer would
  produce as an explicit argument; a count of issued network calls is returned
  where a claim is about whether a call happens.
- A raised Python exception that escapes a function is modelled by `Option`
  (`none` = the call raises), and exceptions caught inside a function are
  constructors of the reply type fed to it.
- numpy float vectors are modelled as `List ℚ`. A cosine score
  `dot / (norm q * norm c)` is represented exactly by the pair
  `(dot, normSq q * normSq c)` standing for the real number `dot / sqrt m`;
  `scoreLe` compares two such represented values exactly.
-/

/-- Models Python `str.lower()` (ASCII case mapping). -/
def pyLower (s : String) : String := ⟨s.data.map Char.toLower⟩

/-- Models Python `str.strip()`: drop leading and trailing whitespace. -/
def pyStrip (s : String) : String :=
  ⟨((s.data.dropWhile Char.isWhitespace).reverse.dropWhile Char.isWhitespace).reverse⟩

/-- The normalized comparison key used by `deduplicate_cards`:
Python `s.lower().strip()`. -/
def pyNormalize (s : String) : String := pyStrip (pyLower s)

/-- Models Python `s.startswith(p)`. -/
def strStartsWith (s p : String) : Bool := p.data.isPrefixOf s.data

/-- Models the Python substring test `sub in s`. -/
def strContains (s sub : String) : Bool :=
  (List.range (s.data.length + 1)).any fun i => sub.data.isPrefixOf (s.data.drop i)

/-- A row of the candidate-cards DataFrame as read by `deduplicate_cards`
(only the `Front` column is consulted; `Back` carried along to distinguish rows). -/
structure Card where
  front : String
  back : String
deriving DecidableEq, Repr

/-- The filtering loop of `deduplicate_cards`: iterate in order, keep a card when
its normalized front is not in `seen`, then add the key to `seen`
(the Python code uses a set; a list with membership is the same test). -/
def dedupGo : List Card → List String → List Card
  | [], _ => []
  | c :: rest, seen =>
    let f := pyNormalize c.front
    if f ∈ seen then dedupGo rest seen
    else c :: dedupGo rest (f :: seen)

/-- Embeds `deduplicate_cards(new_cards, existing_questions)` from
src/utils/data_processing.py lines 46-66. The guard on line 51 returns the
input unchanged when the DataFrame is empty or `existing_questions` is falsy
(empty list). -/
def deduplicate_cards (new_cards : List Card) (existing_questions : List String) :
    List Card :=
  if new_cards = [] ∨ existing_questions = [] then new_cards
  else dedupGo new_cards (existing_questions.map pyNormalize)

theorem dedupGo_sublist (l : List Card) : ∀ seen, List.Sublist (dedupGo l seen) l := by
  induction l with
  | nil => intro seen; exact List.Sublist.refl _
  | cons c rest ih =>
    intro seen
    simp only [dedupGo]
    by_cases h : pyNormalize c.front ∈ seen
    · simp only [if_pos h]
      exact (ih seen).cons c
    · simp only [if_neg h]
      exact (ih _).cons₂ c

theorem dedupGo_not_mem_seen (c : Card) (l : List Card) :
    ∀ seen, c ∈ dedupGo l seen → pyNormalize c.front ∉ seen := by
  induction l with
  | nil => intro seen h; simp [dedupGo] at h
  | cons c0 rest ih =>
    intro seen h
    simp only [dedupGo] at h
    by_cases h0 : pyNormalize c0.front ∈ seen
    · rw [if_pos h0] at h
      exact ih seen h
    · rw [if_neg h0] at h
      rcases List.mem_cons.mp h with rfl | hmem
      · exact h0
      · have := ih _ hmem
        intro hc
        exact this (List.mem_cons_of_mem _ hc)

/-- Claim C5: for every candidate list and every existing-questions list, the
output of `deduplicate_cards` is a sublist of the input: it is never longer,
and the kept candidates appear in the same relative order as in the input. -/
theorem C5_dedupe_sublist_and_length (cards : List Card) (existing : List String) :
    List.Sublist (deduplicate_cards cards existing) cards ∧
      (deduplicate_cards cards existing).length ≤ cards.length := by
  have hs : List.Sublist (deduplicate_cards cards existing) cards := by
    unfold deduplicate_cards
    by_cases h : cards = [] ∨ existing = []
    · rw [if_pos h]
    · rw [if_neg h]
      exact dedupGo_sublist cards _
  exact ⟨hs, hs.length_le⟩

/-- Claim C1 (evaluation of the code at the failing input): with an empty
existing-questions list the guard on line 51 of data_processing.py returns the
batch unchanged, so the intra-batch duplicate front `Question 1` is NOT dropped —
contradicting the spec sentence and the repository test
`test_internal_deduplication`, which expect 2 cards. -/
theorem C1_intra_batch_dedup_skipped_on_empty_history :
    deduplicate_cards
        [⟨"Question 1", "Answer 1"⟩, ⟨"Question 1", "Answer 1 (Copy)"⟩,
         ⟨"Question 2", "Answer 2"⟩] []
      = [⟨"Question 1", "Answer 1"⟩, ⟨"Question 1", "Answer 1 (Copy)"⟩,
         ⟨"Question 2", "Answer 2"⟩] := rfl

/-- Claim C6: dedup matching uses the normalized key (lowercase + trim) on both
candidates and existing questions: the concrete instance
`dedupe([⟨"  Q1  ", b⟩], existing = ["q1"])` is empty, and in general no kept
candidate has a normalized front equal to the normalized form of any existing
question. -/
theorem C6_dedupe_normalized_match :
    deduplicate_cards [⟨"  Q1  ", "b"⟩] ["q1"] = [] ∧
      ∀ (cards : List Card) (existing : List String) (c : Card),
        c ∈ deduplicate_cards cards existing →
          pyNormalize c.front ∉ existing.map pyNormalize := by
  constructor
  · rfl
  · intro cards existing c hc
    unfold deduplicate_cards at hc
    by_cases h : cards = [] ∨ existing = []
    · rw [if_pos h] at hc
      rcases h with h | h
      · subst h; simp at hc
      · subst h; simp
    · rw [if_neg h] at hc
      exact dedupGo_not_mem_seen c cards _ hc

theorem C6_dedupe_normalized_match_witness :
    (⟨"Fresh question", "b"⟩ : Card) ∈ deduplicate_cards [⟨"Fresh question", "b"⟩] ["q1"] ∧
      pyNormalize "Fresh question" ∉ ["q1"].map pyNormalize := by
  refine ⟨by decide, ?_⟩
  exact C6_dedupe_normalized_match.2 [⟨"Fresh question", "b"⟩] ["q1"]
    ⟨"Fresh question", "b"⟩ (by decide)

/-- A stored chunk of `SimpleVectorStore` (src/utils/rag.py): text, opaque
metadata (stand-in type `String`), embedding vector. -/
structure Chunk where
  text : String
  metadata : String
  embedding : List ℚ
deriving DecidableEq, Repr

/-- Models `np.dot` on equal-length vectors. -/
def dot (q c : List ℚ) : ℚ := (List.zipWith (fun a b => a * b) q c).sum

/-- Squared euclidean norm; `np.linalg.norm v == 0` iff `normSq v = 0`. -/
def normSq (v : List ℚ) : ℚ := (v.map (fun a => a * a)).sum

/-- The score `SimpleVectorStore.search` assigns to one stored chunk: the literal
`0` when the chunk norm is zero (represented `(0, 1)`), otherwise the cosine
`dot / (q_norm * c_norm)`, represented exactly as the pair
`(dot q c, normSq q * normSq c)` standing for `dot / sqrt m`. -/
def cosScore (q : List ℚ) (c : Chunk) : ℚ × ℚ :=
  if normSq c.embedding = 0 then (0, 1)
  else (dot q c.embedding, normSq q * normSq c.embedding)

/-- Exact comparison `a.1 / sqrt a.2 ≤ b.1 / sqrt b.2` of two represented scores
(the second components are positive by construction). -/
def scoreLe (a b : ℚ × ℚ) : Bool :=
  if a.1 < 0 ∧ 0 ≤ b.1 then true
  else if 0 ≤ a.1 ∧ b.1 < 0 then false
  else if 0 ≤ a.1 then decide (a.1 * a.1 * b.2 ≤ b.1 * b.1 * a.2)
  else decide (b.1 * b.1 * a.2 ≤ a.1 * a.1 * b.2)

/-- Embeds `SimpleVectorStore.search(query, k)` from src/utils/rag.py lines 30-63, with
the embedding of the query passed explicitly (`none` models a gateway failure).
Guards in source order: empty store, falsy query embedding (`None` or the empty
list), zero query norm. Then each chunk is scored, the list is sorted by score
descending (Python `list.sort` is stable; modelled by the stable `mergeSort`),
and the first `k` chunks are returned. -/
def search (chunks : List Chunk) (query_emb : Option (List ℚ)) (k : Nat) :
    List Chunk :=
  if chunks = [] then []
  else
    match query_emb with
    | none => []
    | some q =>
      if q = [] then []
      else if normSq q = 0 then []
      else
        let scores := chunks.map fun c => (cosScore q c, c)
        let sorted := scores.mergeSort fun a b => scoreLe b.1 a.1
        (sorted.take k).map Prod.snd

theorem search_some_eq (chunks : List Chunk) (q : List ℚ) (k : Nat) :
    search chunks (some q) k
      = if chunks = [] then []
        else if q = [] then []
        else if normSq q = 0 then []
        else (((chunks.map fun c => (cosScore q c, c)).mergeSort
            fun a b => scoreLe b.1 a.1).take k).map Prod.snd := rfl

theorem search_zero_norm_query (chunks : List Chunk) (q : List ℚ) (k : Nat)
    (h0 : normSq q = 0) : search chunks (some q) k = [] := by
  rw [search_some_eq]
  by_cases hc : chunks = []
  · rw [if_pos hc]
  · rw [if_neg hc]
    by_cases hq : q = []
    · rw [if_pos hq]
    · rw [if_neg hq, if_pos h0]

/-- Claim C2, counterexample: on a non-empty index, a zero-norm query makes
`search` return the empty list (rag.py lines 44-45) instead of still returning
up to `k` chunks as the claim states. -/
theorem C2_zero_norm_query_counterexample :
    search [⟨"sample stored chunk text", "", [1]⟩] (some [0]) 5 = [] ∧
      ([⟨"sample stored chunk text", "", [1]⟩] : List Chunk) ≠ [] := by
  constructor
  · exact search_zero_norm_query _ _ _ (by norm_num [normSq])
  · simp

/-- Claim C2 as amended: a STORED vector with zero norm scores `0` for the pair,
is still ranked and not excluded (for a query that embeds, is non-empty and has
non-zero norm, `search` returns exactly `min k n` chunks and, when `k` covers the
whole store, every chunk — zero-norm ones included), but a zero-norm QUERY makes
`search` return the empty list even on a non-empty index. -/
theorem C2_zero_norm_amended (chunks : List Chunk) (q : List ℚ) (k : Nat)
    (hc : chunks ≠ []) (hq : q ≠ []) (hn : normSq q ≠ 0) :
    (search chunks (some q) k).length = min k chunks.length ∧
      (∀ c ∈ chunks, normSq c.embedding = 0 → cosScore q c = (0, 1)) ∧
      (∀ c ∈ chunks, chunks.length ≤ k → c ∈ search chunks (some q) k) ∧
      (∀ q0 : List ℚ, normSq q0 = 0 → search chunks (some q0) k = []) := by
  have hsearch : search chunks (some q) k
      = (((chunks.map fun c => (cosScore q c, c)).mergeSort
            fun a b => scoreLe b.1 a.1).take k).map Prod.snd := by
    rw [search_some_eq, if_neg hc, if_neg hq, if_neg hn]
  have hperm : List.Perm
      ((chunks.map fun c => (cosScore q c, c)).mergeSort fun a b => scoreLe b.1 a.1)
      (chunks.map fun c => (cosScore q c, c)) :=
    List.mergeSort_perm _ _
  have hlen : ((chunks.map fun c => (cosScore q c, c)).mergeSort
      fun a b => scoreLe b.1 a.1).length = chunks.length := by
    rw [hperm.length_eq, List.length_map]
  refine ⟨?_, ?_, ?_, ?_⟩
  · rw [hsearch, List.length_map, List.length_take, hlen]
  · intro c _ hzero
    unfold cosScore
    rw [if_pos hzero]
  · intro c hmem hk
    rw [hsearch]
    rw [List.take_of_length_le (by rw [hlen]; exact hk)]
    have h1 : (cosScore q c, c)
        ∈ (chunks.map fun c => (cosScore q c, c)) :=
      List.mem_map_of_mem _ hmem
    have h2 := hperm.mem_iff.mpr h1
    exact List.mem_map_of_mem Prod.snd h2
  · intro q0 h0
    exact search_zero_norm_query chunks q0 k h0

theorem C2_zero_norm_amended_witness :
    (([⟨"first stored chunk", "", [0, 1]⟩, ⟨"second stored chunk", "", [0, 0]⟩] :
        List Chunk) ≠ [] ∧ ([1, 1] : List ℚ) ≠ [] ∧ normSq [1, 1] ≠ 0) ∧
      ((search [⟨"first stored chunk", "", [0, 1]⟩, ⟨"second stored chunk", "", [0, 0]⟩]
          (some [1, 1]) 2).length
        = min 2 ([⟨"first stored chunk", "", [0, 1]⟩,
            ⟨"second stored chunk", "", [0, 0]⟩] : List Chunk).length ∧
      (∀ c ∈ ([⟨"first stored chunk", "", [0, 1]⟩, ⟨"second stored chunk", "", [0, 0]⟩] :
          List Chunk), normSq c.embedding = 0 → cosScore [1, 1] c = (0, 1)) ∧
      (∀ c ∈ ([⟨"first stored chunk", "", [0, 1]⟩, ⟨"second stored chunk", "", [0, 0]⟩] :
          List Chunk),
        ([⟨"first stored chunk", "", [0, 1]⟩, ⟨"second stored chunk", "", [0, 0]⟩] :
          List Chunk).length ≤ 2 →
          c ∈ search [⟨"first stored chunk", "", [0, 1]⟩,
            ⟨"second stored chunk", "", [0, 0]⟩] (some [1, 1]) 2) ∧
      (∀ q0 : List ℚ, normSq q0 = 0 →
          search [⟨"first stored chunk", "", [0, 1]⟩, ⟨"second stored chunk", "", [0, 0]⟩]
            (some q0) 2 = [])) :=
  ⟨⟨by simp, by simp, by norm_num [normSq]⟩,
    C2_zero_norm_amended _ [1, 1] 2 (by simp) (by simp) (by norm_num [normSq])⟩

/-- The outcome of the HTTP round-trip performed inside `push_notes_to_anki`:
either the `requests.post` / `response.json()` call raises (caught by the broad
`except` with message `msg`), or a JSON object with an `error` field
(`none` = JSON null) and a `result` field (`none` = null or absent key; each
entry of the list is a note id or null). -/
inductive StoreReply where
  | exn (msg : String)
  | reply (error : Option String) (result : Option (List (Option Nat)))
deriving DecidableEq, Repr

/-- Python truthiness of a per-note result entry (an int id or None):
`None` and `0` are falsy. -/
def truthyId : Option Nat → Bool
  | none => false
  | some n => decide (n ≠ 0)

/-- Python truthiness of the top-level `error` field (a string or None):
`None` and the empty string are falsy. -/
def truthyErr : Option String → Bool
  | none => false
  | some s => decide (s ≠ "")

/-- The accounting loop of `push_notes_to_anki` (data_processing.py lines
241-246), modelled as structural recursion over the enumerated entries:
`i` is the 0-based position of the first entry, a truthy entry adds one
success, a falsy entry appends `Failed to add note {i+1}`. -/
def addNotesLoop (i : Nat) : List (Option Nat) → Nat × List String
  | [] => (0, [])
  | r :: rest =>
    let acc := addNotesLoop (i + 1) rest
    if truthyId r then (acc.1 + 1, acc.2)
    else (acc.1, ("Failed to add note " ++ toString (i + 1)) :: acc.2)

/-- Embeds `push_notes_to_anki(notes)` from data_processing.py lines 206-252, as a
function of the store reply. A raised transport exception gives
`(0, [message])`; a truthy top-level error gives `(0, [error])`; otherwise the
per-note list (`[]` when the key is absent, and a null list behaves the same as
the empty list under the `if results:` guard) is accounted entry by entry. -/
def push_notes_to_anki : StoreReply → Nat × List String
  | .exn e => (0, [e])
  | .reply error result =>
    if truthyErr error then (0, [error.getD ""])
    else addNotesLoop 0 (result.getD [])

theorem addNotesLoop_spec (l : List (Option Nat)) : ∀ i : Nat,
    addNotesLoop i l
      = (l.countP truthyId,
         ((List.enumFrom i l).filter fun p => !truthyId p.2).map
           fun p => "Failed to add note " ++ toString (p.1 + 1)) := by
  induction l with
  | nil => intro i; rfl
  | cons r rest ih =>
    intro i
    simp only [addNotesLoop, ih (i + 1), List.countP_cons, List.enumFrom,
      List.filter_cons]
    by_cases h : truthyId r
    · simp [h]
    · simp [h]

/-- Claim C3: when the store reply has a null top-level error and a per-note
result list, `push_notes_to_anki` returns as success count the number of truthy
entries and one failure message per falsy entry labeled with its 1-based
position; in particular `result = [1, 0, 5]` gives `(2, ["Failed to add note 2"])`. -/
theorem C3_push_batch_per_note_accounting :
    (∀ l : List (Option Nat),
        push_notes_to_anki (.reply none (some l))
          = (l.countP truthyId,
             ((l.enum.filter fun p => !truthyId p.2).map
               fun p => "Failed to add note " ++ toString (p.1 + 1)))) ∧
      push_notes_to_anki (.reply none (some [some 1, some 0, some 5]))
        = (2, ["Failed to add note 2"]) := by
  have hmain : ∀ l : List (Option Nat),
      push_notes_to_anki (.reply none (some l))
        = (l.countP truthyId,
           ((l.enum.filter fun p => !truthyId p.2).map
             fun p => "Failed to add note " ++ toString (p.1 + 1))) := by
    intro l
    show addNotesLoop 0 l = _
    exact addNotesLoop_spec l 0
  refine ⟨hmain, ?_⟩
  rw [hmain]
  rfl

/-- Claim C4: a transport-level exception, and a truthy top-level error from
the store, each make `push_notes_to_anki` report zero successes and exactly one
error entry describing the failure (the embedding is a total function: no
exception escapes). -/
theorem C4_push_batch_batch_level_failure :
    (∀ msg : String, push_notes_to_anki (.exn msg) = (0, [msg])) ∧
      ∀ (err : String) (result : Option (List (Option Nat))), err ≠ "" →
        push_notes_to_anki (.reply (some err) result) = (0, [err]) := by
  constructor
  · intro msg; rfl
  · intro err result h
    show (if truthyErr (some err) then ((0 : Nat), [(some err).getD ""])
        else addNotesLoop 0 (result.getD [])) = (0, [err])
    rw [if_pos (by simpa [truthyErr] using h)]
    rfl

theorem C4_push_batch_batch_level_failure_witness :
    ("deck not found" ≠ "") ∧
      push_notes_to_anki (.reply (some "deck not found") (some [some 1, some 2]))
        = (0, ["deck not found"]) :=
  ⟨by decide,
    C4_push_batch_batch_level_failure.2 "deck not found" (some [some 1, some 2])
      (by decide)⟩

/-- The outcome of the version-probe round-trip inside `check_ankiconnect`:
a connection error, a timeout, another raised exception (message `msg`), or a
parsed JSON object with `result` (int or null) and `error` fields. -/
inductive TransportReply where
  | connError
  | timeout
  | otherExn (msg : String)
  | json (result : Option Nat) (error : Option String)
deriving DecidableEq, Repr

/-- Python truthiness of the probe `result` field: `None` and `0` are falsy. -/
def truthyVersion : Option Nat → Bool
  | none => false
  | some n => decide (n ≠ 0)

/-- Python `str(x)` of the JSON `error` field (null prints as `None`). -/
def pyShowOptStr : Option String → String
  | none => "None"
  | some s => s

/-- Embeds `check_ankiconnect(anki_url)` from data_processing.py lines 15-44, with the
environment default URL and the transport outcome passed explicitly.
A falsy (empty) `anki_url` argument is first replaced by the environment value
(line 20-21). The second component counts the network calls issued: `0` when the
URL-shape guard on line 24 fires, `1` otherwise. -/
def check_ankiconnect (anki_url0 envUrl : String) (reply : TransportReply) :
    (Bool × String) × Nat :=
  let anki_url := if anki_url0 = "" then envUrl else anki_url0
  if ¬(strStartsWith anki_url "http://" = true ∨ strStartsWith anki_url "https://" = true) then
    ((false, "Invalid URL: Must start with http:// or https://"), 0)
  else
    match reply with
    | .json result error =>
      if truthyVersion result then
        ((true, "AnkiConnect v" ++ toString (result.getD 0) ++ " at " ++ anki_url), 1)
      else
        ((false, "AnkiConnect error: " ++ pyShowOptStr error), 1)
    | .connError =>
      if strContains anki_url "localhost" then
        ((false, "Cannot reach localhost:8765. Use ngrok tunnel for Cloud access."), 1)
      else
        ((false, "Cannot connect to " ++ anki_url), 1)
    | .timeout => ((false, "AnkiConnect request timed out"), 1)
    | .otherExn msg => ((false, "AnkiConnect check failed: " ++ msg), 1)

/-- Claim C8, counterexample: the empty string starts with neither scheme, yet
`check_ankiconnect` does not return the invalid-URL result for it — a falsy URL
argument is replaced by the default endpoint first (line 20-21), and a network
call IS issued (count 1). -/
theorem C8_empty_url_counterexample :
    strStartsWith "" "http://" = false ∧ strStartsWith "" "https://" = false ∧
      check_ankiconnect "" "http://localhost:8765" (.json (some 6) none)
        = ((true, "AnkiConnect v6 at http://localhost:8765"), 1) := by
  refine ⟨by decide, by decide, ?_⟩
  decide

/-- Claim C8 as amended: for every NON-EMPTY endpoint string that starts with
neither `http://` nor `https://`, `check_ankiconnect` returns
`(false, "Invalid URL: Must start with http:// or https://")` and issues no
network call, whatever the transport would have replied; an empty endpoint is
first replaced by the configured default URL. -/
theorem C8_invalid_url_amended (url envUrl : String) (reply : TransportReply)
    (hne : url ≠ "")
    (h1 : strStartsWith url "http://" = false)
    (h2 : strStartsWith url "https://" = false) :
    check_ankiconnect url envUrl reply
      = ((false, "Invalid URL: Must start with http:// or https://"), 0) := by
  unfold check_ankiconnect
  rw [if_neg hne, if_pos]
  rw [h1, h2]
  simp

theorem C8_invalid_url_amended_witness :
    ("ftp://host" ≠ "" ∧ strStartsWith "ftp://host" "http://" = false ∧
        strStartsWith "ftp://host" "https://" = false) ∧
      check_ankiconnect "ftp://host" "http://localhost:8765" .connError
        = ((false, "Invalid URL: Must start with http:// or https://"), 0) :=
  ⟨⟨by decide, by decide, by decide⟩,
    C8_invalid_url_amended "ftp://host" "http://localhost:8765" .connError
      (by decide) (by decide) (by decide)⟩

/-- One record of a user history file (utils/history.py `add_cards` shape). -/
structure HistoryRecord where
  front : String
  back : String
  deck : String
  tag : String
  source : String
  timestamp : String
deriving DecidableEq, Repr

/-- The on-disk state of one user history file: absent, present but unreadable
(invalid JSON), or a readable list of records. -/
inductive FileState where
  | missing
  | corrupt
  | good (records : List HistoryRecord)
deriving DecidableEq, Repr

/-- Embeds `CardHistory._load_history` (history.py lines 30-39): a missing or
unreadable file loads as the empty history. -/
def load_history : FileState → List HistoryRecord
  | .missing => []
  | .corrupt => []
  | .good h => h

/-- Embeds `CardHistory.delete_deck(email, deck_name, include_subdecks)` from
history.py lines 94-125, acting on the state of the file for that user.
Returns the deleted count and the new file state; `_save_history` is called —
replacing the file content with the filtered records — only when
`deleted_count > 0` (line 121-122). -/
def delete_deck (st : FileState) (deck_name : String) (include_subdecks : Bool) :
    Nat × FileState :=
  let history := load_history st
  let filtered :=
    if include_subdecks then
      history.filter fun c =>
        !(c.deck == deck_name) && !(strStartsWith c.deck (deck_name ++ "::"))
    else
      history.filter fun c => !(c.deck == deck_name)
  let deleted_count := history.length - filtered.length
  (deleted_count, if deleted_count > 0 then .good filtered else st)

theorem length_sub_filter_not (l : List HistoryRecord) (p : HistoryRecord → Bool) :
    l.length - (l.filter fun c => !(p c)).length = l.countP p := by
  induction l with
  | nil => rfl
  | cons c rest ih =>
    have hle := List.length_filter_le (fun x => !(p x)) rest
    by_cases h : p c
    · simp only [List.filter_cons, List.countP_cons, List.length_cons, h,
        Bool.not_true, if_pos, Bool.false_eq_true, if_false]
      omega
    · have h0 : p c = false := by revert h; cases p c <;> simp
      simp only [List.filter_cons, List.countP_cons, List.length_cons, h0,
        Bool.not_false, if_true, Bool.false_eq_true, if_false]
      omega

theorem delete_deck_good (h : List HistoryRecord) (name : String) (inc : Bool)
    (p : HistoryRecord → Bool)
    (hp : ∀ c, (if inc then
        !(c.deck == name) && !(strStartsWith c.deck (name ++ "::"))
      else !(c.deck == name)) = !(p c)) :
    (delete_deck (.good h) name inc).1 = h.countP p ∧
      load_history (delete_deck (.good h) name inc).2 = h.filter fun c => !(p c) := by
  have hfilter : (if inc then
        h.filter fun c => !(c.deck == name) && !(strStartsWith c.deck (name ++ "::"))
      else h.filter fun c => !(c.deck == name)) = h.filter fun c => !(p c) := by
    cases inc
    · show h.filter _ = h.filter _
      exact List.filter_congr fun c _ => by simpa using hp c
    · show h.filter _ = h.filter _
      exact List.filter_congr fun c _ => by simpa using hp c
  have hcount : (delete_deck (.good h) name inc).1 = h.countP p := by
    show (load_history (.good h)).length - (if inc then
        (load_history (.good h)).filter fun c =>
          !(c.deck == name) && !(strStartsWith c.deck (name ++ "::"))
      else (load_history (.good h)).filter fun c => !(c.deck == name)).length = _
    simp only [load_history, hfilter]
    exact length_sub_filter_not h p
  refine ⟨hcount, ?_⟩
  show load_history (if (delete_deck (.good h) name inc).1 > 0 then
      FileState.good (if inc then
        h.filter fun c => !(c.deck == name) && !(strStartsWith c.deck (name ++ "::"))
      else h.filter fun c => !(c.deck == name))
    else .good h) = _
  rw [hfilter, hcount]
  by_cases hz : h.countP p > 0
  · rw [if_pos hz]; rfl
  · rw [if_neg hz]
    show h = _
    have h0 : h.countP p = 0 := by omega
    have hall : ∀ c ∈ h, p c = false := by
      intro c hc
      have hcc := (List.countP_eq_zero.mp h0) c hc
      revert hcc; cases p c <;> simp
    have hfe : (h.filter fun c => !(p c)) = h :=
      List.filter_eq_self.mpr fun a ha => by rw [hall a ha]; rfl
    exact hfe.symm

theorem delete_deck_snd (st : FileState) (name : String) (inc : Bool) :
    (delete_deck st name inc).2
      = if (delete_deck st name inc).1 > 0 then
          FileState.good (if inc then
            (load_history st).filter fun c =>
              !(c.deck == name) && !(strStartsWith c.deck (name ++ "::"))
          else (load_history st).filter fun c => !(c.deck == name))
        else st := rfl

theorem delete_deck_fst (st : FileState) (name : String) (inc : Bool) :
    (delete_deck st name inc).1
      = (load_history st).length - (if inc then
            (load_history st).filter fun c =>
              !(c.deck == name) && !(strStartsWith c.deck (name ++ "::"))
          else (load_history st).filter fun c => !(c.deck == name)).length := rfl

/-- Claim C7: `delete_deck` with `include_subdecks = true` removes exactly the
records whose deck equals `deck_name` or starts with `deck_name ++ "::"` and
returns their number; with `include_subdecks = false` only exact matches are
removed; on decks `Anatomy`, `Anatomy::Heart`, `AnatomyPlus`, deleting
`Anatomy` with subdecks removes the first two, keeps `AnatomyPlus`, returns 2. -/
theorem C7_delete_deck_matching (h : List HistoryRecord) (name : String) :
    ((delete_deck (.good h) name true).1
        = h.countP (fun r => (r.deck == name) || strStartsWith r.deck (name ++ "::")) ∧
      load_history (delete_deck (.good h) name true).2
        = h.filter fun r => !((r.deck == name) || strStartsWith r.deck (name ++ "::"))) ∧
    ((delete_deck (.good h) name false).1 = h.countP (fun r => r.deck == name) ∧
      load_history (delete_deck (.good h) name false).2
        = h.filter fun r => !(r.deck == name)) ∧
    delete_deck (.good
        [⟨"f1", "b1", "Anatomy", "", "Generated", "t"⟩,
         ⟨"f2", "b2", "Anatomy::Heart", "", "Generated", "t"⟩,
         ⟨"f3", "b3", "AnatomyPlus", "", "Generated", "t"⟩]) "Anatomy" true
      = (2, .good [⟨"f3", "b3", "AnatomyPlus", "", "Generated", "t"⟩]) := by
  refine ⟨?_, ?_, ?_⟩
  · exact delete_deck_good h name true _ fun c => by simp [Bool.not_or]
  · exact delete_deck_good h name false _ fun c => by simp
  · decide

/-- Claim C10: when `delete_deck` matches zero records it leaves the file state
untouched (missing stays missing, a corrupt file keeps its bytes, a good file
keeps its exact content); the file is rewritten only when at least one record
was removed, and then the state really changes. -/
theorem C10_delete_deck_no_write_when_no_match (st : FileState) (name : String)
    (inc : Bool) :
    ((delete_deck st name inc).1 = 0 → (delete_deck st name inc).2 = st) ∧
      ((delete_deck st name inc).1 > 0 → (delete_deck st name inc).2 ≠ st) := by
  constructor
  · intro h0
    rw [delete_deck_snd, h0]
    simp
  · intro hpos
    rw [delete_deck_snd, if_pos hpos]
    cases st with
    | missing =>
      exfalso
      rw [delete_deck_fst] at hpos
      revert hpos
      cases inc <;> simp [load_history]
    | corrupt =>
      exfalso
      rw [delete_deck_fst] at hpos
      revert hpos
      cases inc <;> simp [load_history]
    | good hist =>
      intro heq
      have hf : (if inc then
          (load_history (.good hist)).filter fun c =>
            !(c.deck == name) && !(strStartsWith c.deck (name ++ "::"))
        else (load_history (.good hist)).filter fun c => !(c.deck == name)) = hist :=
        FileState.good.inj heq
      rw [delete_deck_fst, hf] at hpos
      simp [load_history] at hpos

theorem C10_delete_deck_no_write_when_no_match_witness :
    (delete_deck (.good [⟨"f1", "b1", "SomeDeck", "", "Generated", "t"⟩])
        "OtherDeck" true).1 = 0 ∧
      (delete_deck (.good [⟨"f1", "b1", "SomeDeck", "", "Generated", "t"⟩])
          "OtherDeck" true).2
        = .good [⟨"f1", "b1", "SomeDeck", "", "Generated", "t"⟩] :=
  ⟨by decide,
    (C10_delete_deck_no_write_when_no_match
        (.good [⟨"f1", "b1", "SomeDeck", "", "Generated", "t"⟩]) "OtherDeck" true).1
      (by decide)⟩

/-- A row of the DataFrame consumed by `format_cards_for_ankiconnect`.
`tag = none` models a row whose DataFrame has no `Tag` column, so that the
lookup `row[Tag]` raises a KeyError. -/
structure CardRow where
  front : String
  back : String
  deck : String
  tag : Option String
deriving DecidableEq, Repr

/-- The note dictionary built for AnkiConnect `addNotes` (data_processing.py
lines 139-151): `fields.Front`/`fields.Back` are `frontField`/`backField`, the
two fixed options are carried as `allowDuplicate`/`duplicateScope`. -/
structure AnkiNote where
  deckName : String
  modelName : String
  frontField : String
  backField : String
  allowDuplicate : Bool
  duplicateScope : String
  tags : List String
deriving DecidableEq, Repr

/-- Embeds `format_cards_for_ankiconnect(df)` from data_processing.py lines 133-152.
The result is `none` when the loop raises (a row without a `Tag` value:
`row[Tag]` raises KeyError and no list is returned); otherwise the list of
notes in row order, with `tags = [tag]` for a truthy tag and `[]` for the
falsy empty string. -/
def format_cards_for_ankiconnect : List CardRow → Option (List AnkiNote)
  | [] => some []
  | row :: rest =>
    match row.tag with
    | none => none
    | some t =>
      match format_cards_for_ankiconnect rest with
      | none => none
      | some notes =>
        some ({ deckName := row.deck, modelName := "Basic", frontField := row.front,
                backField := row.back, allowDuplicate := false,
                duplicateScope := "deck",
                tags := if t ≠ "" then [t] else [] } :: notes)

/-- Claim C9, counterexample: a row with no `Tag` field makes
`format_cards_for_ankiconnect` raise (modelled `none`) instead of producing a
note with an empty tag list. -/
theorem C9_absent_tag_counterexample :
    format_cards_for_ankiconnect [⟨"f", "b", "d", none⟩] = none := rfl


theorem format_cons_eq (row : CardRow) (rest : List CardRow) :
    format_cards_for_ankiconnect (row :: rest)
      = match row.tag with
        | none => none
        | some t =>
          match format_cards_for_ankiconnect rest with
          | none => none
          | some notes =>
            some ({ deckName := row.deck, modelName := "Basic",
                    frontField := row.front, backField := row.back,
                    allowDuplicate := false, duplicateScope := "deck",
                    tags := if t ≠ "" then [t] else [] } :: notes) := rfl

/-- The note a row produces, with the tag rule of line 150: `[tag]` for a
truthy tag, `[]` for the falsy empty string (and `[]` never reached for an
absent tag, which raises instead). -/
def noteOfRow (r : CardRow) : AnkiNote :=
  { deckName := r.deck, modelName := "Basic", frontField := r.front,
    backField := r.back, allowDuplicate := false, duplicateScope := "deck",
    tags := match r.tag with
      | some t => if t ≠ "" then [t] else []
      | none => [] }

/-- Claim C9 as amended: a PRESENT but falsy (empty) `Tag` yields an empty tag
list and a truthy `Tag` yields the one-element list containing it, with no
error; but an ABSENT `Tag` field raises a KeyError (result `none`) instead of
yielding an empty tag list. -/
theorem C9_tag_handling_amended (rows : List CardRow) :
    ((∃ r ∈ rows, r.tag = none) → format_cards_for_ankiconnect rows = none) ∧
      ((∀ r ∈ rows, r.tag ≠ none) →
        format_cards_for_ankiconnect rows = some (rows.map noteOfRow)) := by
  induction rows with
  | nil =>
    constructor
    · intro h
      simp at h
    · intro _
      rfl
  | cons row rest ih =>
    constructor
    · intro h
      rcases h with ⟨r, hr, htag⟩
      rcases List.mem_cons.mp hr with heq | hmem
      · rw [heq] at htag
        rw [format_cons_eq, htag]
      · have hrest : format_cards_for_ankiconnect rest = none :=
          ih.1 ⟨r, hmem, htag⟩
        rw [format_cons_eq, hrest]
        cases h2 : row.tag <;> rfl
    · intro hall
      have hhead : row.tag ≠ none := hall row (List.mem_cons_self row rest)
      rcases htag : row.tag with _ | t
      · exact absurd htag hhead
      · have hrest := ih.2 fun r hr => hall r (List.mem_cons_of_mem row hr)
        rw [format_cons_eq, htag, hrest]
        simp [noteOfRow, htag]

theorem C9_tag_handling_amended_witness :
    (∀ r ∈ ([⟨"f1", "b1", "d1", some ""⟩, ⟨"f2", "b2", "d2", some "mytag"⟩] :
        List CardRow), r.tag ≠ none) ∧
      format_cards_for_ankiconnect
          [⟨"f1", "b1", "d1", some ""⟩, ⟨"f2", "b2", "d2", some "mytag"⟩]
        = some [⟨"d1", "Basic", "f1", "b1", false, "deck", []⟩,
                ⟨"d2", "Basic", "f2", "b2", false, "deck", ["mytag"]⟩] := by
  refine ⟨by decide, ?_⟩
  rw [(C9_tag_handling_amended
      [⟨"f1", "b1", "d1", some ""⟩, ⟨"f2", "b2", "d2", some "mytag"⟩]).2 (by decide)]
  rfl
